import Mathlib

/-!
Verification of `construct/debug.py`: the `Probe` (Inspector) stage and the
`Debugger` (Interactive-debug) stage, shallowly embedded as pure state-passing
functions.  Streams are modelled as an in-memory byte list with a cursor
(Python `BytesIO` semantics), printing is modelled as a list of output events
carrying the semantic payload of each `print` call, and the interactive pdb
session is modelled as an operator action transforming the captured-return
slot (`self.retval`).
-/

/-- A seekable in-memory byte stream: the byte contents and the cursor
position, as used by `Probe.printout` through `tell`, `read` and `seek`. -/
structure ByteStream where
  data : List Nat
  pos : Nat
  deriving DecidableEq, Repr

/-- Python `stream.tell()`: report the cursor. -/
def ByteStream.tell (s : ByteStream) : Nat := s.pos

/-- Python `stream.read(n)`: read up to `n` bytes from the cursor (fewer, or
none, at end of stream) and advance the cursor by the number of bytes read. -/
def ByteStream.read (s : ByteStream) (n : Nat) : List Nat × ByteStream :=
  let bytes := (s.data.drop s.pos).take n
  (bytes, { s with pos := s.pos + bytes.length })

/-- Python `stream.seek(p)`: set the cursor. -/
def ByteStream.seek (s : ByteStream) (p : Nat) : ByteStream := { s with pos := p }

/-- One `print` call made by the debug module, carrying its semantic payload.
The rendering of a hex dump (`construct.lib.hexdump`, an external collaborator
of this module) and of a context are kept as the data being rendered. -/
inductive OutEvent (Ctx : Type) where
  | separator
  | probeHeader (name : String)
  | eofReached
  | hexDump (bytes : List Nat) (width : Nat)
  | contextPrint (ctx : Ctx)
  | debugHeader (subconRepr : String)
  | tracebackText (excType excMsg : String)
  | hintText (msg : String)
  | pdbPostMortem
  deriving DecidableEq, Repr

/-- Decimal digit to character, as used by `%d` formatting (digits are always
below 10 at the call sites). -/
def digitChar (d : Nat) : Char :=
  if d = 0 then '0' else if d = 1 then '1' else if d = 2 then '2'
  else if d = 3 then '3' else if d = 4 then '4' else if d = 5 then '5'
  else if d = 6 then '6' else if d = 7 then '7' else if d = 8 then '8'
  else if d = 9 then '9' else '?'

/-- Numeric value of a digit character (left inverse of `digitChar` below 10). -/
def digitVal (c : Char) : Nat := c.toNat - 48

/-- Fuel-driven worker for `decDigits`; the fuel is always sufficient at the
call site (`n` itself bounds the number of divisions by 10). -/
def decDigitsGo : Nat → Nat → List Nat
  | 0, n => [n % 10]
  | fuel + 1, n => if n < 10 then [n] else decDigitsGo fuel (n / 10) ++ [n % 10]

/-- The decimal digits of `n`, most significant first: the model of the
digit sequence produced by `%d` formatting. -/
def decDigits (n : Nat) : List Nat := decDigitsGo n n

/-- Recombine a digit list (most significant first) into a number. -/
def digitsToNat (l : List Nat) : Nat := l.foldl (fun a d => 10 * a + d) 0

/-- The string `"<unnamed %d>" % c` produced by `Probe.__init__` when no name
is supplied. -/
def probeName (c : Nat) : String :=
  "<unnamed " ++ String.mk ((decDigits c).map digitChar) ++ ">"

/-- The process-wide class-level state of `Probe`: the naming counter
(`Probe.counter`, initially 0). -/
structure ProbeGlobals where
  counter : Nat
  deriving DecidableEq, Repr

/-- The per-instance configuration of a `Probe`, mirroring its `__slots__`:
`printname`, `show_stream`, `show_context`, `show_stack`, `stream_lookahead`.
(The `flagbuildnone` flag set by `__init__` belongs to the engine protocol and
plays no role in the behaviour modelled here.) -/
structure Probe where
  printname : String
  show_stream : Bool
  show_context : Bool
  show_stack : Bool
  stream_lookahead : Nat
  deriving DecidableEq, Repr

/-- `Probe.__init__`: when `name` is `None`, increment the class counter and
auto-generate the display name from it; otherwise use the given name and
leave the counter untouched. -/
def Probe.init (g : ProbeGlobals) (name : Option String)
    (show_stream show_context show_stack : Bool) (stream_lookahead : Nat) :
    Probe × ProbeGlobals :=
  match name with
  | some n => (⟨n, show_stream, show_context, show_stack, stream_lookahead⟩, g)
  | none =>
    let cnt := g.counter + 1
    (⟨probeName cnt, show_stream, show_context, show_stack, stream_lookahead⟩, ⟨cnt⟩)

/-- Create `k` probes in a row, all without an explicit name, threading the
class-level counter; returns the created probes in creation order. -/
def mkUnnamedProbes : Nat → ProbeGlobals → List Probe × ProbeGlobals
  | 0, g => ([], g)
  | Nat.succ k, g =>
    let pg := Probe.init g none true true true 128
    let rest := mkUnnamedProbes k pg.2
    (pg.1 :: rest.1, rest.2)

/-- The auto-generated display names of `k` unnamed probes, in creation order. -/
def unnamedNamesList (g : ProbeGlobals) (k : Nat) : List String :=
  ((mkUnnamedProbes k g).1).map Probe.printname

/-- `Probe.printout(stream, context)`: separator, header, then (when
`show_stream`) the non-destructive lookahead with cursor save/restore and
either the end-of-stream notice or the hex dump, then (when `show_context`)
the context, then the closing separator.  The `show_stack` block of the
source is commented out, so nothing here reads `show_stack`. -/
def Probe.printout {Ctx : Type} (p : Probe) (stream : ByteStream) (context : Ctx) :
    List (OutEvent Ctx) × ByteStream :=
  let out0 := [OutEvent.separator, OutEvent.probeHeader p.printname]
  let (outS, stream1) :=
    if p.show_stream then
      let fallback := stream.tell
      let rd := stream.read p.stream_lookahead
      let stream2 := rd.2.seek fallback
      (if rd.1 = [] then [OutEvent.eofReached]
       else [OutEvent.hexDump rd.1 32], stream2)
    else ([], stream)
  let outC := if p.show_context then [OutEvent.contextPrint context] else []
  (out0 ++ outS ++ outC ++ [OutEvent.separator], stream1)

/-- `Probe._parse(stream, context)`: prints the snapshot and produces no value
(Python returns `None`); the resulting stream and context are returned. -/
def Probe.parse {Ctx : Type} (p : Probe) (stream : ByteStream) (context : Ctx) :
    List (OutEvent Ctx) × ByteStream × Ctx :=
  let pr := p.printout stream context
  (pr.1, pr.2, context)

/-- `Probe._build(obj, stream, context)`: prints the snapshot; the object is
accepted but ignored. -/
def Probe.build {Ctx α : Type} (p : Probe) (obj : α) (stream : ByteStream) (context : Ctx) :
    List (OutEvent Ctx) × ByteStream × Ctx :=
  let pr := p.printout stream context
  (pr.1, pr.2, context)

/-- `Probe._sizeof(context)`: always 0. -/
def Probe.sizeof {Ctx : Type} (p : Probe) (context : Ctx) : Nat := 0

/-- Whether an output event list contains a hex dump. -/
def hasHexDump {Ctx : Type} (out : List (OutEvent Ctx)) : Bool :=
  out.any fun e => match e with
    | OutEvent.hexDump _ _ => true
    | _ => false

/-- A raised Python error: its type name, its message, and whether the type is
a member of the `Exception` hierarchy (`false` for bare `BaseException`
descendants such as `KeyboardInterrupt` or `SystemExit`, which an
`except Exception:` clause does not catch). -/
structure PyExc where
  excType : String
  msg : String
  isException : Bool
  deriving DecidableEq, Repr

/-- Outcome of calling a delegate stage: either a produced value with the
resulting stream and context, or a raised error together with the stream and
context state at the moment of the raise. -/
inductive POutcome (α Ctx : Type) where
  | ok (v : α) (s : ByteStream) (c : Ctx)
  | raised (e : PyExc) (s : ByteStream) (c : Ctx)
  deriving DecidableEq, Repr

/-- The delegate stage wrapped by a `Debugger` (`self.subcon`): its `_parse`,
`_build` and `_sizeof` entry points. -/
structure Subcon (α Ctx : Type) where
  parse : ByteStream → Ctx → POutcome α Ctx
  build : α → ByteStream → Ctx → POutcome Unit Ctx
  sizeof : Ctx → Except PyExc Nat

/-- The captured-return slot of a `Debugger` (`self.retval`): either the
sentinel `NotImplemented` (meaning no substitute was supplied) or a
substitute value placed there by the operator. -/
inductive Slot (α : Type) where
  | notImplemented
  | val (v : α)
  deriving DecidableEq, Repr

/-- The hint printed by `Debugger._parse` before the session (modulo the
literal quoting of the attribute name). -/
def parseHintMsg : String :=
  "(you can set the value of self.retval, which will be returned)"

/-- The output of `Debugger.handle_exc(msg)`: separator, header naming the
delegate, traceback text of the error (minus the outermost handler frame),
the optional hint, the pdb post-mortem session, closing separator. -/
def handleExcOut {Ctx : Type} (subconRepr : String) (msg : Option String) (e : PyExc) :
    List (OutEvent Ctx) :=
  [OutEvent.separator, OutEvent.debugHeader subconRepr,
   OutEvent.tracebackText e.excType e.msg]
  ++ (match msg with | some m => [OutEvent.hintText m] | none => [])
  ++ [OutEvent.pdbPostMortem, OutEvent.separator]

/-- Result of one `Debugger._parse` call: the returned value or re-raised
error, the final stream and context state, the final value of the
captured-return slot, and the printed output. -/
structure DebugParseResult (α Ctx : Type) where
  result : Except PyExc α
  stream : ByteStream
  context : Ctx
  retval : Slot α
  out : List (OutEvent Ctx)
  deriving Repr

/-- Result of one `Debugger._build` call (Python `_build` returns `None` on
the success path and also after a handled exception). -/
structure DebugBuildResult (α Ctx : Type) where
  result : Except PyExc Unit
  stream : ByteStream
  context : Ctx
  retval : Slot α
  out : List (OutEvent Ctx)
  deriving Repr

/-- `Debugger._parse(stream, context)`: call the delegate; on success return
its value.  On a raised error in the `Exception` hierarchy: set
`self.retval = NotImplemented`, run `handle_exc` with the hint (the pdb
session is modelled by the operator action `op` transforming the slot); after
the session, re-raise the original error if the slot still holds the sentinel,
otherwise return the slot value.  Errors outside the `Exception` hierarchy
propagate untouched.  `retval` is the value of the slot before the call and
`op` is what the operator does to the slot during the session. -/
def Debugger.parse {α Ctx : Type} (sub : Subcon α Ctx) (subconRepr : String)
    (op : Slot α → Slot α) (retval : Slot α) (stream : ByteStream) (context : Ctx) :
    DebugParseResult α Ctx :=
  match sub.parse stream context with
  | POutcome.ok v s c => ⟨Except.ok v, s, c, retval, []⟩
  | POutcome.raised e s c =>
    if e.isException then
      let retval1 := op Slot.notImplemented
      let out := handleExcOut subconRepr (some parseHintMsg) e
      match retval1 with
      | Slot.notImplemented => ⟨Except.error e, s, c, retval1, out⟩
      | Slot.val v => ⟨Except.ok v, s, c, retval1, out⟩
    else ⟨Except.error e, s, c, retval, []⟩

/-- `Debugger._build(obj, stream, context)`: call the delegate; on a raised
error in the `Exception` hierarchy run `handle_exc` with no hint and then
fall off the end of the `except` block, returning normally (the source has no
re-raise on this path, and never reads the slot here; the operator can still
write the slot during the session, hence `op`).  Errors outside the
`Exception` hierarchy propagate untouched. -/
def Debugger.build {α Ctx : Type} (sub : Subcon α Ctx) (subconRepr : String)
    (op : Slot α → Slot α) (retval : Slot α) (obj : α) (stream : ByteStream)
    (context : Ctx) : DebugBuildResult α Ctx :=
  match sub.build obj stream context with
  | POutcome.ok _ s c => ⟨Except.ok (), s, c, retval, []⟩
  | POutcome.raised e s c =>
    if e.isException then ⟨Except.ok (), s, c, op retval, handleExcOut subconRepr none e⟩
    else ⟨Except.error e, s, c, retval, []⟩

/-- Modelled from the spec: `Debugger` inherits `_sizeof` from the engine base
class `Subconstruct` (`construct/core.py`, not among the sources here); per the
spec it delegates to the wrapped stage with no special error handling, so
success values and errors pass through unchanged. -/
def Debugger.sizeofD {α Ctx : Type} (sub : Subcon α Ctx) (context : Ctx) :
    Except PyExc Nat :=
  sub.sizeof context

/-- A probe with lookahead 0 and all display options at their defaults, used
as a concrete test fixture. -/
def probeL0 : Probe := ⟨"p", true, true, true, 0⟩

/-- A 3-byte stream with the cursor at the start, used as a concrete fixture. -/
def stream3 : ByteStream := ⟨[1, 2, 3], 0⟩

/-- A concrete error in the `Exception` hierarchy (the `RangeError` of the
docstring example of `Debugger`). -/
def rangeErr : PyExc :=
  ⟨"construct.core.RangeError", "expected from 3 to 3 elements, found 0", true⟩

/-- A concrete error outside the `Exception` hierarchy. -/
def kbdInterrupt : PyExc := ⟨"KeyboardInterrupt", "", false⟩

/-- A delegate whose parse and build always raise `rangeErr` and whose sizeof
is 3, used as a concrete fixture (`Ctx = Unit`, values are `Nat`). -/
def failingSub : Subcon Nat Unit :=
  ⟨fun s c => POutcome.raised rangeErr s c,
   fun _ s c => POutcome.raised rangeErr s c,
   fun _ => Except.ok 3⟩

/-- A delegate whose parse and build always raise `kbdInterrupt`. -/
def interruptedSub : Subcon Nat Unit :=
  ⟨fun s c => POutcome.raised kbdInterrupt s c,
   fun _ s c => POutcome.raised kbdInterrupt s c,
   fun _ => Except.ok 3⟩

/-- A delegate whose parse succeeds with value 5 and whose sizeof fails,
used as a concrete fixture. -/
def okSub : Subcon Nat Unit :=
  ⟨fun s c => POutcome.ok 5 s c,
   fun _ s c => POutcome.ok () s c,
   fun _ => Except.error rangeErr⟩

/-- An operator action that sets the captured-return slot to 7. -/
def opSet7 : Slot Nat → Slot Nat := fun _ => Slot.val 7

/-- A probe with lookahead 2 and default display options, a concrete fixture. -/
def probeLA2 : Probe := ⟨"q", true, true, true, 2⟩

/-- A 3-byte stream with the cursor on the second byte, a concrete fixture. -/
def streamMid : ByteStream := ⟨[5, 6, 7], 1⟩

/-- A 2-byte stream with the cursor past the end, a concrete fixture. -/
def streamEof : ByteStream := ⟨[1, 2], 2⟩

/-- A probe with the default configuration, a concrete fixture. -/
def probeDefault : Probe := ⟨"r", true, true, true, 128⟩

theorem digitsToNat_decDigitsGo : ∀ (fuel n : Nat), n ≤ fuel →
    digitsToNat (decDigitsGo fuel n) = n := by
  intro fuel
  induction fuel with
  | zero => intro n hn; interval_cases n; rfl
  | succ f ih =>
    intro n hn
    by_cases h : n < 10
    · simp [decDigitsGo, h, digitsToNat]
    · have hlt : n / 10 < n := Nat.div_lt_self (by omega) (by omega)
      have hdiv : n / 10 ≤ f := by omega
      have ihd := ih (n / 10) hdiv
      simp only [digitsToNat] at ihd ⊢
      simp only [decDigitsGo, if_neg h, List.foldl_append, List.foldl_cons,
        List.foldl_nil, ihd]
      omega

theorem decDigits_injective : Function.Injective decDigits := by
  intro a b h
  have ha := digitsToNat_decDigitsGo a a le_rfl
  have hb := digitsToNat_decDigitsGo b b le_rfl
  rw [← ha, ← hb]
  unfold decDigits at h
  rw [h]

theorem decDigits_lt10 (n : Nat) : ∀ d ∈ decDigits n, d < 10 := by
  have : ∀ (fuel m : Nat), ∀ d ∈ decDigitsGo fuel m, d < 10 := by
    intro fuel
    induction fuel with
    | zero => intro m d hd; simp [decDigitsGo] at hd; omega
    | succ f ih =>
      intro m d hd
      by_cases h : m < 10
      · simp [decDigitsGo, h] at hd; omega
      · simp only [decDigitsGo, if_neg h, List.mem_append, List.mem_singleton] at hd
        rcases hd with hd | hd
        · exact ih (m / 10) d hd
        · omega
  exact this n n

theorem digitVal_digitChar : ∀ d, d < 10 → digitVal (digitChar d) = d := by decide

theorem probeName_injective : Function.Injective probeName := by
  intro a b h
  apply decDigits_injective
  have hdata : ("<unnamed " : String).data ++ ((decDigits a).map digitChar ++ ('>' :: [])) =
      ("<unnamed " : String).data ++ ((decDigits b).map digitChar ++ ('>' :: [])) := by
    have := congrArg String.data h
    simpa [probeName, String.data_append] using this
  have h2 := List.append_cancel_left hdata
  have h3 : (decDigits a).map digitChar = (decDigits b).map digitChar :=
    List.append_cancel_right h2
  have h4 := congrArg (List.map digitVal) h3
  rw [List.map_map, List.map_map] at h4
  have ida : (decDigits a).map (digitVal ∘ digitChar) = decDigits a := by
    rw [List.map_congr_left, List.map_id]
    intro d hd
    exact digitVal_digitChar d (decDigits_lt10 a d hd)
  have idb : (decDigits b).map (digitVal ∘ digitChar) = decDigits b := by
    rw [List.map_congr_left, List.map_id]
    intro d hd
    exact digitVal_digitChar d (decDigits_lt10 b d hd)
  rw [ida, idb] at h4
  exact h4

theorem unnamedNamesList_getElem (g : ProbeGlobals) :
    ∀ (k i : Nat), i < k →
      (unnamedNamesList g k)[i]? = some (probeName (g.counter + i + 1)) := by
  suffices h : ∀ (k : Nat) (g : ProbeGlobals) (i : Nat), i < k →
      (unnamedNamesList g k)[i]? = some (probeName (g.counter + i + 1)) by
    intro k i hik
    exact h k g i hik
  intro k
  induction k with
  | zero => intro g i hik; omega
  | succ m ih =>
    intro g i hik
    match i with
    | 0 => simp [unnamedNamesList, mkUnnamedProbes, Probe.init]
    | Nat.succ j =>
      have hj : j < m := by omega
      have := ih ⟨g.counter + 1⟩ j hj
      simp only [unnamedNamesList, mkUnnamedProbes, Probe.init, List.map_cons] at this ⊢
      rw [List.getElem?_cons_succ, this]
      congr 2
      omega

/-- C3: for every context mapping C and every stream state, the Inspector
stage's parse leaves C unchanged and leaves the stream (in particular its
cursor position) equal to its pre-call value, and its sizeof returns exactly
0 for every context. -/
theorem probe_parse_preserves_state (Ctx : Type) (p : Probe) (s : ByteStream) (c : Ctx) :
    (Probe.parse p s c).2.1 = s ∧ (Probe.parse p s c).2.2 = c ∧ Probe.sizeof p c = 0 := by
  obtain ⟨nm, ss, sc, stk, la⟩ := p
  cases ss <;>
    simp [Probe.parse, Probe.printout, Probe.sizeof, ByteStream.seek,
      ByteStream.read, ByteStream.tell]

/-- C4 counterexample: with `stream_lookahead = 0` (an allowed value, L = 0)
and a non-exhausted 3-byte stream, the snapshot prints the end-of-stream
notice and no hex dump at all, contrary to the claim that for every L at
least 0 a hex dump of exactly the L bytes at the cursor is printed. -/
theorem probe_lookahead_zero_counterexample :
    hasHexDump (Probe.parse probeL0 stream3 ()).1 = false ∧
    OutEvent.eofReached ∈ (Probe.parse probeL0 stream3 ()).1 := by decide

/-- C4 amended: for every `stream_lookahead` value L at least 1 (with stream
display enabled) and every stream holding at least L bytes after the cursor,
the snapshot prints a hex dump containing exactly the L bytes starting at the
pre-call cursor position, and the cursor after the call equals the cursor
before the call.  (At L = 0 the read yields no bytes and the end-of-stream
notice is printed instead, see the counterexample.) -/
theorem probe_lookahead_dumps_exact_bytes (Ctx : Type) (p : Probe) (s : ByteStream)
    (c : Ctx) (hs : p.show_stream = true) (h1 : 1 ≤ p.stream_lookahead)
    (hlen : s.pos + p.stream_lookahead ≤ s.data.length) :
    OutEvent.hexDump ((s.data.drop s.pos).take p.stream_lookahead) 32 ∈
      (Probe.parse p s c).1 ∧
    ((s.data.drop s.pos).take p.stream_lookahead).length = p.stream_lookahead ∧
    (Probe.parse p s c).2.1.pos = s.pos := by
  obtain ⟨nm, ss, sc, stk, la⟩ := p
  simp only [Probe.show_stream] at hs
  subst hs
  simp only [Probe.stream_lookahead] at h1 hlen
  have hlenD : ((s.data.drop s.pos).take la).length = la := by
    rw [List.length_take, List.length_drop]
    omega
  have hne : ¬ ((s.data.drop s.pos).take la = []) := by
    intro h0
    rw [h0] at hlenD
    simp at hlenD
    omega
  cases sc <;>
    simp [Probe.parse, Probe.printout, ByteStream.read, ByteStream.tell,
      ByteStream.seek, hne, hlenD]

/-- C4 witness: the amended theorem applied to a probe with lookahead 2 on a
3-byte stream with the cursor at position 1. -/
theorem probe_lookahead_dumps_exact_bytes_witness :
    OutEvent.hexDump ((streamMid.data.drop streamMid.pos).take probeLA2.stream_lookahead) 32 ∈
      (Probe.parse probeLA2 streamMid ()).1 ∧
    ((streamMid.data.drop streamMid.pos).take probeLA2.stream_lookahead).length =
      probeLA2.stream_lookahead ∧
    (Probe.parse probeLA2 streamMid ()).2.1.pos = streamMid.pos :=
  probe_lookahead_dumps_exact_bytes Unit probeLA2 streamMid () (by decide) (by decide)
    (by decide)

/-- C8: if the lookahead read yields 0 bytes (with stream display enabled),
the snapshot prints the explicit end-of-stream notice and no hex dump. -/
theorem probe_eof_indicator (Ctx : Type) (p : Probe) (s : ByteStream) (c : Ctx)
    (hs : p.show_stream = true)
    (hempty : (s.data.drop s.pos).take p.stream_lookahead = []) :
    OutEvent.eofReached ∈ (Probe.parse p s c).1 ∧
    hasHexDump (Probe.parse p s c).1 = false := by
  obtain ⟨nm, ss, sc, stk, la⟩ := p
  simp only [Probe.show_stream] at hs
  subst hs
  simp only [Probe.stream_lookahead] at hempty
  cases sc <;>
    simp [Probe.parse, Probe.printout, ByteStream.read, ByteStream.tell,
      ByteStream.seek, hempty, hasHexDump]

/-- C8 witness: the theorem applied to the default probe on an exhausted
2-byte stream. -/
theorem probe_eof_indicator_witness :
    OutEvent.eofReached ∈ (Probe.parse probeDefault streamEof ()).1 ∧
    hasHexDump (Probe.parse probeDefault streamEof ()).1 = false :=
  probe_eof_indicator Unit probeDefault streamEof () (by decide) (by decide)

/-- C9: `show_stack` is a documented no-op: two probes differing only in
`show_stack` have identical parse, build, printout and sizeof behaviour
(same outputs, same stream and context effects, same results). -/
theorem probe_show_stack_noop (Ctx α : Type) (nm : String) (ss sc b1 b2 : Bool)
    (la : Nat) (s : ByteStream) (c : Ctx) (obj : α) :
    Probe.parse ⟨nm, ss, sc, b1, la⟩ s c = Probe.parse ⟨nm, ss, sc, b2, la⟩ s c ∧
    Probe.build ⟨nm, ss, sc, b1, la⟩ obj s c = Probe.build ⟨nm, ss, sc, b2, la⟩ obj s c ∧
    Probe.printout ⟨nm, ss, sc, b1, la⟩ s c = Probe.printout ⟨nm, ss, sc, b2, la⟩ s c ∧
    Probe.sizeof ⟨nm, ss, sc, b1, la⟩ c = Probe.sizeof ⟨nm, ss, sc, b2, la⟩ c :=
  ⟨rfl, rfl, rfl, rfl⟩

/-- C2: when the delegate's parse raises an Exception-hierarchy error E, the
Interactive-debug stage's parse re-raises exactly E (same type and message)
if the captured-return slot still holds the sentinel after the session, and
returns the value V placed in the slot by the operator otherwise. -/
theorem debugger_parse_reraise_or_substitute (α Ctx : Type) (sub : Subcon α Ctx)
    (r : String) (op : Slot α → Slot α) (rv : Slot α) (s : ByteStream) (c : Ctx)
    (e : PyExc) (s1 : ByteStream) (c1 : Ctx)
    (hp : sub.parse s c = POutcome.raised e s1 c1) (he : e.isException = true) :
    (op Slot.notImplemented = Slot.notImplemented →
      (Debugger.parse sub r op rv s c).result = Except.error e) ∧
    (∀ v, op Slot.notImplemented = Slot.val v →
      (Debugger.parse sub r op rv s c).result = Except.ok v) := by
  refine ⟨fun hslot => ?_, fun v hslot => ?_⟩ <;>
    simp [Debugger.parse, hp, he, hslot]

/-- C2 witness: a delegate raising `rangeErr`; with the identity operator
action the error is re-raised, with the operator setting the slot to 7 the
parse returns 7. -/
theorem debugger_parse_reraise_or_substitute_witness :
    (Debugger.parse failingSub "<Range: None>" id Slot.notImplemented stream3 ()).result =
      Except.error rangeErr ∧
    (Debugger.parse failingSub "<Range: None>" opSet7 Slot.notImplemented stream3 ()).result =
      Except.ok 7 :=
  ⟨(debugger_parse_reraise_or_substitute Nat Unit failingSub "<Range: None>" id
      Slot.notImplemented stream3 () rangeErr stream3 () rfl rfl).1 rfl,
   (debugger_parse_reraise_or_substitute Nat Unit failingSub "<Range: None>" opSet7
      Slot.notImplemented stream3 () rangeErr stream3 () rfl rfl).2 7 rfl⟩

/-- C1 counterexample: a delegate whose build raises `rangeErr` (an
Exception-hierarchy error); the Interactive-debug stage's build returns
normally instead of re-raising, so the claim that build always re-raises the
error after the session is false on the code. -/
theorem debugger_build_swallows_counterexample :
    (Debugger.build failingSub "<Range: None>" id Slot.notImplemented 0 stream3 ()).result =
      Except.ok () := rfl

/-- C1 amended: when the delegate's build raises an Exception-hierarchy error,
the Interactive-debug stage's build prints the diagnostics and runs the
session, then returns normally without re-raising, regardless of any
captured-return-slot manipulation: the error is silently swallowed on the
build path. -/
theorem debugger_build_catches_and_returns (α Ctx : Type) (sub : Subcon α Ctx)
    (r : String) (op : Slot α → Slot α) (rv : Slot α) (obj : α) (s : ByteStream)
    (c : Ctx) (e : PyExc) (s1 : ByteStream) (c1 : Ctx)
    (hb : sub.build obj s c = POutcome.raised e s1 c1) (he : e.isException = true) :
    (Debugger.build sub r op rv obj s c).result = Except.ok () ∧
    (Debugger.build sub r op rv obj s c).out = handleExcOut r none e := by
  simp [Debugger.build, hb, he]

/-- C1 witness: the amended theorem applied to the `rangeErr`-raising
delegate. -/
theorem debugger_build_catches_and_returns_witness :
    (Debugger.build failingSub "<Range: None>" opSet7 (Slot.val 9) 0 stream3 ()).result =
      Except.ok () ∧
    (Debugger.build failingSub "<Range: None>" opSet7 (Slot.val 9) 0 stream3 ()).out =
      handleExcOut "<Range: None>" none rangeErr :=
  debugger_build_catches_and_returns Nat Unit failingSub "<Range: None>" opSet7
    (Slot.val 9) 0 stream3 () rangeErr stream3 () rfl rfl

/-- C5 counterexample: a parse invocation whose delegate succeeds leaves the
captured-return slot untouched, so a stale substitute value from before the
call is still in the slot afterwards: the slot is not reset at the start of
every parse invocation. -/
theorem debugger_slot_not_reset_counterexample :
    (Debugger.parse okSub "sub" id (Slot.val 7) stream3 ()).retval = Slot.val 7 ∧
    ¬ (Debugger.parse okSub "sub" id (Slot.val 7) stream3 ()).retval =
      Slot.notImplemented := by decide

/-- C5 amended: the captured-return slot is reset to the sentinel at the
start of the failure handling of every parse invocation whose delegate
raises, before the operator session runs; consequently the session starts
from the sentinel and the whole outcome of a failing parse is independent of
the value the slot held before the call (a substitute set during one failure
session is never reused stale by a later failing parse). -/
theorem debugger_slot_reset_before_session (α Ctx : Type) (sub : Subcon α Ctx)
    (r : String) (op : Slot α → Slot α) (rv rv1 : Slot α) (s : ByteStream) (c : Ctx)
    (e : PyExc) (s1 : ByteStream) (c1 : Ctx)
    (hp : sub.parse s c = POutcome.raised e s1 c1) (he : e.isException = true) :
    (Debugger.parse sub r op rv s c).retval = op Slot.notImplemented ∧
    Debugger.parse sub r op rv s c = Debugger.parse sub r op rv1 s c := by
  constructor
  · unfold Debugger.parse
    rw [hp]
    simp only [he, if_true]
    cases h : op Slot.notImplemented <;> simp [h]
  · unfold Debugger.parse
    rw [hp]
    simp [he]

/-- C5 witness: the amended theorem applied to the `rangeErr`-raising
delegate with a stale value 9 in the slot. -/
theorem debugger_slot_reset_before_session_witness :
    (Debugger.parse failingSub "<Range: None>" opSet7 (Slot.val 9) stream3 ()).retval =
      opSet7 Slot.notImplemented ∧
    Debugger.parse failingSub "<Range: None>" opSet7 (Slot.val 9) stream3 () =
      Debugger.parse failingSub "<Range: None>" opSet7 Slot.notImplemented stream3 () :=
  debugger_slot_reset_before_session Nat Unit failingSub "<Range: None>" opSet7
    (Slot.val 9) Slot.notImplemented stream3 () rangeErr stream3 () rfl rfl

/-- C10: an error outside the `Exception` hierarchy raised by the delegate
during parse or build propagates to the caller unmodified, with nothing
printed, no interactive session, and no captured-return-slot update. -/
theorem debugger_base_exception_passthrough (α Ctx : Type) (sub : Subcon α Ctx)
    (r : String) (op : Slot α → Slot α) (rv : Slot α) (obj : α) (s : ByteStream)
    (c : Ctx) (e : PyExc) (s1 : ByteStream) (c1 : Ctx) (s2 : ByteStream) (c2 : Ctx)
    (he : e.isException = false)
    (hp : sub.parse s c = POutcome.raised e s1 c1)
    (hb : sub.build obj s c = POutcome.raised e s2 c2) :
    (Debugger.parse sub r op rv s c).result = Except.error e ∧
    (Debugger.parse sub r op rv s c).retval = rv ∧
    (Debugger.parse sub r op rv s c).out = [] ∧
    (Debugger.build sub r op rv obj s c).result = Except.error e ∧
    (Debugger.build sub r op rv obj s c).retval = rv ∧
    (Debugger.build sub r op rv obj s c).out = [] := by
  simp [Debugger.parse, Debugger.build, hp, hb, he]

/-- C10 witness: the theorem applied to a delegate raising
`KeyboardInterrupt` (not in the `Exception` hierarchy). -/
theorem debugger_base_exception_passthrough_witness :
    (Debugger.parse interruptedSub "sub" opSet7 (Slot.val 9) stream3 ()).result =
      Except.error kbdInterrupt ∧
    (Debugger.parse interruptedSub "sub" opSet7 (Slot.val 9) stream3 ()).retval =
      Slot.val 9 ∧
    (Debugger.parse interruptedSub "sub" opSet7 (Slot.val 9) stream3 ()).out = [] ∧
    (Debugger.build interruptedSub "sub" opSet7 (Slot.val 9) 0 stream3 ()).result =
      Except.error kbdInterrupt ∧
    (Debugger.build interruptedSub "sub" opSet7 (Slot.val 9) 0 stream3 ()).retval =
      Slot.val 9 ∧
    (Debugger.build interruptedSub "sub" opSet7 (Slot.val 9) 0 stream3 ()).out = [] :=
  debugger_base_exception_passthrough Nat Unit interruptedSub "sub" opSet7
    (Slot.val 9) 0 stream3 () kbdInterrupt stream3 () stream3 () rfl rfl rfl

/-- C7: the Interactive-debug stage's sizeof (inherited delegation, modelled
from the spec) returns the delegate's sizeof value when it succeeds and
propagates the delegate's error unmodified when it fails. -/
theorem debugger_sizeof_delegates (α Ctx : Type) (sub : Subcon α Ctx) (c : Ctx) :
    (∀ n, sub.sizeof c = Except.ok n → Debugger.sizeofD sub c = Except.ok n) ∧
    (∀ e, sub.sizeof c = Except.error e → Debugger.sizeofD sub c = Except.error e) :=
  ⟨fun _ h => h, fun _ h => h⟩

/-- C7 witness: the theorem applied to a delegate with sizeof 3 and to one
whose sizeof raises. -/
theorem debugger_sizeof_delegates_witness :
    Debugger.sizeofD failingSub () = Except.ok 3 ∧
    Debugger.sizeofD okSub () = Except.error rangeErr :=
  ⟨(debugger_sizeof_delegates Nat Unit failingSub ()).1 3 rfl,
   (debugger_sizeof_delegates Nat Unit okSub ()).2 rangeErr rfl⟩

/-- C6 counterexample: among the first ten auto-generated names from a fresh
counter, the ninth name is `<unnamed 9>` and the tenth is `<unnamed 10>`,
and the tenth compares strictly below the ninth in the standard lexicographic
string order: the auto-generated names are not monotonically increasing in
creation order. -/
theorem probe_autonames_not_monotone_counterexample :
    (unnamedNamesList ⟨0⟩ 10)[8]? = some (probeName 9) ∧
    (unnamedNamesList ⟨0⟩ 10)[9]? = some (probeName 10) ∧
    probeName 10 < probeName 9 := by
  refine ⟨by decide, by decide, ?_⟩
  rw [String.lt_iff_toList_lt]
  decide

/-- C6 amended: any two Inspector instances constructed without an explicit
name in the same process receive distinct auto-generated names, and the
counter value embedded in the names is strictly increasing in creation order
(the name strings themselves are not monotone in lexicographic order, see the
counterexample). -/
theorem probe_autonames_distinct_counter_increasing (g : ProbeGlobals) (k i j : Nat)
    (hij : i < j) (hjk : j < k) :
    (unnamedNamesList g k)[i]? = some (probeName (g.counter + i + 1)) ∧
    (unnamedNamesList g k)[j]? = some (probeName (g.counter + j + 1)) ∧
    probeName (g.counter + i + 1) ≠ probeName (g.counter + j + 1) ∧
    g.counter + i + 1 < g.counter + j + 1 := by
  refine ⟨unnamedNamesList_getElem g k i (by omega),
    unnamedNamesList_getElem g k j hjk, ?_, by omega⟩
  intro hne
  have := probeName_injective hne
  omega

/-- C6 witness: the amended theorem applied to the first and second unnamed
instances from a fresh counter. -/
theorem probe_autonames_distinct_counter_increasing_witness :
    (unnamedNamesList ⟨0⟩ 2)[0]? = some (probeName 1) ∧
    (unnamedNamesList ⟨0⟩ 2)[1]? = some (probeName 2) ∧
    probeName 1 ≠ probeName 2 ∧
    (1 : Nat) < 2 :=
  probe_autonames_distinct_counter_increasing ⟨0⟩ 2 0 1 (by decide) (by decide)
